import Mathlib

/-!
Verification of the NUTRI_PLAN diet-planner service.

Shallow embedding of the repository's Python code:
* `app/models/requests.py`   — `DietRequest` and its validation,
* `app/services/diet_service.py` — `DietService` calculations,
* `app/routes/diet_routes.py` — the `POST /diet-plan` handler's
  exception-to-HTTP-status mapping,
* `app/exceptions/__init__.py` — the exception taxonomy.

Python floats are modelled as rationals (`ℚ`); Python `round` (banker's
rounding, ties to even) is modelled by `roundHalfEven`; Python dicts of
constants are modelled as association lists looked up by `dictGet`.
-/

namespace NutriPlan

/-- Python's built-in `round(x)`: nearest integer, ties to even. -/
def roundHalfEven (x : ℚ) : ℤ :=
  if x - ⌊x⌋ < 1/2 then ⌊x⌋
  else if 1/2 < x - ⌊x⌋ then ⌊x⌋ + 1
  else if ⌊x⌋ % 2 = 0 then ⌊x⌋ else ⌊x⌋ + 1

/-- Python's `round(x, 1)`: round to one decimal place. -/
def round1 (x : ℚ) : ℚ := (roundHalfEven (x * 10) : ℚ) / 10

/-- Python's `round(x, 2)`: round to two decimal places. -/
def round2 (x : ℚ) : ℚ := (roundHalfEven (x * 100) : ℚ) / 100

/-- Python's `str.lower()`, used by the service on gender, activity level
and goal. Written as a map over the character list so it reduces in the
kernel (`String.toLower` does not). -/
def pyLower (s : String) : String := ⟨s.data.map Char.toLower⟩

/-- Lookup in an association list with a default, modelling Python's
`dict.get(key, default)`. -/
def dictGet {α : Type} (d : List (String × α)) (k : String) (default : α) : α :=
  match d.find? (fun kv => kv.1 == k) with
  | some kv => kv.2
  | none => default

/-- Embeds `app/models/requests.py` `DietRequest`: the six profile fields.
`gender`, `activity_level` and `goal` are `Literal` string enums in the
source; they are modelled as raw strings so that the validation predicate
and the service's fallback branches can be stated. -/
structure DietRequest where
  age : ℤ
  gender : String
  height : ℚ
  weight : ℚ
  activity_level : String
  goal : String
deriving Repr, DecidableEq

/-- Embeds the `requests.py` `validate_height` field validator:
rejects `v < 0.5 or v > 3.0`. -/
def validate_height (v : ℚ) : Bool := !(v < 0.5 || v > 3.0)

/-- Embeds the `requests.py` `validate_weight` field validator:
rejects `v < 25 or v > 300`. -/
def validate_weight (v : ℚ) : Bool := !(v < 25 || v > 300)

/-- The `Literal["male", "female"]` constraint on `gender`. -/
def genderLiteralOk (g : String) : Bool := g == "male" || g == "female"

/-- The `Literal[...]` constraint on `activity_level`. -/
def activityLiteralOk (a : String) : Bool :=
  a == "sedentary" || a == "lightly_active" || a == "moderately_active" ||
  a == "very_active" || a == "extra_active"

/-- The `Literal["cut", "bulk", "maintain"]` constraint on `goal`. -/
def goalLiteralOk (g : String) : Bool :=
  g == "cut" || g == "bulk" || g == "maintain"

/-- Pydantic acceptance of a `DietRequest`: the `Field` constraints
(`age`: `gt=8, lt=120`; `height`: `gt=0.5, lt=3.0`; `weight`: `gt=25,
lt=300`; the three `Literal` enums) together with the two `field_validator`
after-validators. All must pass for the model to validate. -/
def dietRequestValid (r : DietRequest) : Bool :=
  (8 < r.age) && (r.age < 120) &&
  genderLiteralOk r.gender &&
  ((0.5 : ℚ) < r.height) && (r.height < 3.0) &&
  ((25 : ℚ) < r.weight) && (r.weight < 300) &&
  activityLiteralOk r.activity_level &&
  goalLiteralOk r.goal &&
  validate_height r.height &&
  validate_weight r.weight

/-- Embeds `app/exceptions/__init__.py`: the `DietServiceException` hierarchy.
Only the subclass and message are relevant to the claims; the `details`
dict is modelled as a list of key/value pairs of rendered values. -/
inductive DietServiceError where
  | validationException (message : String) : DietServiceError
  | calculationException (message : String) : DietServiceError
deriving Repr, DecidableEq

/-- Embeds `DietService.ACTIVITY_MULTIPLIERS` (diet_service.py). -/
def ACTIVITY_MULTIPLIERS : List (String × ℚ) :=
  [("sedentary", 1.2), ("lightly_active", 1.375), ("moderately_active", 1.55),
   ("very_active", 1.725), ("extra_active", 1.9)]

/-- Embeds `DietService.GOAL_ADJUSTMENTS` (diet_service.py). -/
def GOAL_ADJUSTMENTS : List (String × ℚ) :=
  [("maintain", 0), ("cut", -500), ("bulk", 300)]

/-- Embeds `DietService.PROTEIN_MULTIPLIERS` (diet_service.py). -/
def PROTEIN_MULTIPLIERS : List (String × ℚ) :=
  [("maintain", 1.6), ("cut", 2.2), ("bulk", 1.8)]

/-- One row of `DietService.BMI_CATEGORIES`: lower bound, upper bound
(`none` models `float('inf')`, which every finite value is below), label. -/
structure BmiBracket where
  lower : ℚ
  upper : Option ℚ
  category : String

/-- Embeds `DietService.BMI_CATEGORIES` (diet_service.py). -/
def BMI_CATEGORIES : List BmiBracket :=
  [⟨0, some 18.5, "Underweight"⟩, ⟨18.5, some 25, "Normal weight"⟩,
   ⟨25, some 30, "Overweight"⟩, ⟨30, none, "Obese"⟩]

/-- The test `lower <= bmi < upper` of `_get_bmi_category`, with
`float('inf')` as upper bound satisfied by every finite value. -/
def bracketMatches (b : BmiBracket) (bmi : ℚ) : Bool :=
  b.lower ≤ bmi && (match b.upper with | some u => bmi < u | none => true)

/-- Embeds `DietService._get_bmi_category`: first bracket of `BMI_CATEGORIES`
whose `lower <= bmi < upper` holds, else `"Unknown"`. -/
def getBmiCategory (bmi : ℚ) : String :=
  match BMI_CATEGORIES.find? (fun b => bracketMatches b bmi) with
  | some b => b.category
  | none => "Unknown"

/-- Result of `DietService.calculate_bmi`: the `{"value", "category"}` dict. -/
structure BmiResult where
  value : ℚ
  category : String
deriving Repr, DecidableEq

/-- Embeds `DietService.calculate_bmi`: `weight / height**2`, value rounded to two
decimals, category from the unrounded value. Python raises
`ZeroDivisionError` exactly when `height**2 == 0`, which the code converts
to a `CalculationException`. -/
def calculate_bmi (u : DietRequest) : Except DietServiceError BmiResult :=
  if u.height ^ 2 = 0 then
    .error (.calculationException "Invalid height value for BMI calculation")
  else
    let bmi_value := u.weight / u.height ^ 2
    .ok ⟨round2 bmi_value, getBmiCategory bmi_value⟩

/-- Embeds `DietService.calculate_bmr`: Mifflin-St Jeor, height converted from
meters to centimeters, branch on the lowercased gender, result rounded to
one decimal. -/
def calculate_bmr (u : DietRequest) : ℚ :=
  let weight_kg := u.weight
  let height_cm := u.height * 100
  let age : ℚ := u.age
  let bmr :=
    if pyLower u.gender == "male" then
      10 * weight_kg + 6.25 * height_cm - 5 * age + 5
    else
      10 * weight_kg + 6.25 * height_cm - 5 * age - 161
  round1 bmr

/-- Embeds `DietService.calculate_tdee`: BMR times the activity multiplier looked
up on the lowercased level, defaulting to 1.55, rounded to one decimal. -/
def calculate_tdee (u : DietRequest) : ℚ :=
  let bmr := calculate_bmr u
  let activity_multiplier := dictGet ACTIVITY_MULTIPLIERS (pyLower u.activity_level) 1.55
  round1 (bmr * activity_multiplier)

/-- Embeds `DietService.calculate_calories`: TDEE plus the goal adjustment looked
up on the lowercased goal, defaulting to 0, rounded to the nearest int. -/
def calculate_calories (u : DietRequest) : ℤ :=
  let tdee := calculate_tdee u
  let adjustment := dictGet GOAL_ADJUSTMENTS (pyLower u.goal) 0
  roundHalfEven (tdee + adjustment)

/-- Embeds `DietService.calculate_protein`: weight times the protein multiplier
looked up on the lowercased goal, defaulting to 1.6, rounded to one
decimal. -/
def calculate_protein (u : DietRequest) : ℚ :=
  let multiplier := dictGet PROTEIN_MULTIPLIERS (pyLower u.goal) 1.6
  round1 (u.weight * multiplier)

/-- The `{breakfast, lunch, snacks, dinner}` meal-plan dict: exactly these
four keys, each a list of food-item strings. -/
structure MealPlan where
  breakfast : List String
  lunch : List String
  snacks : List String
  dinner : List String
deriving Repr, DecidableEq

/-- The `"cut"` entry of `meal_plans` in `generate_diet_chart`. -/
def cutMealPlan : MealPlan :=
  { breakfast := ["Oats 50g + Milk", "2 egg whites and 1 whole egg"]
    lunch := ["Rice 150g", "Chicken breast 150g", "Salad"]
    snacks := ["Curd 200g", "One seasonal fruit"]
    dinner := ["Roti (2 pieces)", "Paneer 100g / Chicken breast 100g", "Vegetables"] }

/-- The `"bulk"` entry of `meal_plans` in `generate_diet_chart`. -/
def bulkMealPlan : MealPlan :=
  { breakfast := ["Oats 100g + Milk", "4 whole eggs", "3 bananas"]
    lunch := ["Rice 250g", "Chicken 200g", "Dal", "Boiled potato (2 pieces)", "Curd 150g"]
    snacks := ["Banana shake", "Curd 100g", "Peanut butter", "2 whole eggs"]
    dinner := ["Roti (3 pieces)", "Paneer/Chicken 150g", "Vegetables"] }

/-- The `"maintain"` entry of `meal_plans` in `generate_diet_chart`. -/
def maintainMealPlan : MealPlan :=
  { breakfast := ["Oats 80g + Milk", "3 whole eggs", "2 bananas"]
    lunch := ["Rice 200g", "Chicken 100g", "Dal"]
    snacks := ["Fruits", "Curd", "1 whole egg"]
    dinner := ["Roti (3 pieces)", "Paneer/Chicken 100g", "Dal"] }

/-- The `meal_plans` dict literal of `generate_diet_chart`. -/
def meal_plans : List (String × MealPlan) :=
  [("cut", cutMealPlan), ("bulk", bulkMealPlan), ("maintain", maintainMealPlan)]

/-- Embeds `DietService.generate_diet_chart`:
`meal_plans.get(goal.lower(), meal_plans["maintain"])`. -/
def generate_diet_chart (u : DietRequest) : MealPlan :=
  dictGet meal_plans (pyLower u.goal) maintainMealPlan

/-- The dict returned by `DietService.get_complete_plan`. -/
structure CompletePlan where
  age : ℤ
  gender : String
  activity_level : String
  goal : String
  bmi : BmiResult
  metabolism_bmr : ℤ
  metabolism_tdee : ℤ
  macros_calories : ℤ
  macros_protein : ℚ
  diet_chart : MealPlan
deriving Repr, DecidableEq

/-- Embeds `DietService.get_complete_plan`: assembles every field from the
profile; the `calculate_bmi` call can propagate a `CalculationException`. -/
def get_complete_plan (u : DietRequest) : Except DietServiceError CompletePlan :=
  let bmr := calculate_bmr u
  let tdee := calculate_tdee u
  (calculate_bmi u).map fun bmiRes =>
    { age := u.age
      gender := u.gender
      activity_level := u.activity_level
      goal := u.goal
      bmi := bmiRes
      metabolism_bmr := roundHalfEven bmr
      metabolism_tdee := roundHalfEven tdee
      macros_calories := calculate_calories u
      macros_protein := calculate_protein u
      diet_chart := generate_diet_chart u }

/-- Outcome of the `POST /diet-plan` handler in `app/routes/diet_routes.py`:
either a successful `DietPlanResponse` or an `HTTPException` with a status
code and detail string. -/
inductive RouteOutcome where
  | ok (plan : CompletePlan)
  | httpError (statusCode : ℕ) (detail : String)
deriving Repr, DecidableEq

/-- Embeds `create_diet_plan` (diet_routes.py): runs `get_complete_plan` inside
`try`, and its `except Exception` clause converts every exception — the
service's `CalculationException` included — into
`HTTPException(status_code=500, detail="Failed to generate diet plan")`.
The `DietServiceException -> 400` handler registered in `app/main.py`
never fires for this route, because the exception is swallowed here. -/
def create_diet_plan (u : DietRequest) : RouteOutcome :=
  match get_complete_plan u with
  | .ok plan => .ok plan
  | .error _ => .httpError 500 "Failed to generate diet plan"

/-- Status code of a route outcome: `some code` for an `HTTPException`,
`none` for a successful response. -/
def routeStatus : RouteOutcome → Option ℕ
  | .ok _ => none
  | .httpError code _ => some code

/-- Spec-side definition for comparison (written from the spec's words, not
the code): the ordered bracket table "[0,18.5)→Underweight, [18.5,25)→Normal,
[25,30)→Overweight, [30,∞)→Obese", read on a nonnegative BMI value. -/
def specBmiCategory (x : ℚ) : String :=
  if x < 18.5 then "Underweight"
  else if x < 25 then "Normal weight"
  else if x < 30 then "Overweight"
  else "Obese"

/-! ### Helper lemmas about rounding and dict lookup -/

/-- Rounding a value whose fractional part is below one half keeps the floor. -/
lemma roundHalfEven_of_lt_half {x : ℚ} {n : ℤ} (h1 : (n : ℚ) ≤ x) (h2 : x < (n : ℚ) + 1/2) :
    roundHalfEven x = n := by
  have hfl : ⌊x⌋ = n := by
    rw [Int.floor_eq_iff]
    refine ⟨h1, ?_⟩
    linarith
  unfold roundHalfEven
  rw [hfl, if_pos]
  linarith

/-- Rounding a value whose fractional part is above one half goes up. -/
lemma roundHalfEven_of_gt_half {x : ℚ} {n : ℤ} (h1 : (n : ℚ) + 1/2 < x) (h2 : x < (n : ℚ) + 1) :
    roundHalfEven x = n + 1 := by
  have hfl : ⌊x⌋ = n := by
    rw [Int.floor_eq_iff]
    constructor
    · linarith
    · linarith
  unfold roundHalfEven
  rw [hfl, if_neg (by linarith), if_pos (by linarith)]

/-- Rounding an exact half goes to the even neighbour. -/
lemma roundHalfEven_of_tie (n : ℤ) :
    roundHalfEven ((n : ℚ) + 1/2) = if n % 2 = 0 then n else n + 1 := by
  have hfl : ⌊(n : ℚ) + 1/2⌋ = n := by
    rw [Int.floor_eq_iff]
    constructor
    · linarith
    · linarith
  unfold roundHalfEven
  rw [hfl, if_neg (by norm_num), if_neg (by norm_num)]

/-- Round-half-even never moves a value by more than one half. -/
lemma abs_roundHalfEven_sub_le (x : ℚ) : |(roundHalfEven x : ℚ) - x| ≤ 1/2 := by
  have h1 : (⌊x⌋ : ℚ) ≤ x := Int.floor_le x
  have h2 : x < ⌊x⌋ + 1 := Int.lt_floor_add_one x
  unfold roundHalfEven
  split_ifs <;> rw [abs_le] <;> constructor <;> push_cast <;> linarith

/-- Rounding to one decimal never moves a value by more than 1/20. -/
lemma abs_round1_sub_le (x : ℚ) : |round1 x - x| ≤ 1/20 := by
  have h := abs_roundHalfEven_sub_le (x * 10)
  unfold round1
  have : (roundHalfEven (x * 10) : ℚ) / 10 - x = ((roundHalfEven (x * 10) : ℚ) - x * 10) / 10 := by
    ring
  rw [this, abs_div]
  rw [abs_of_pos (by norm_num : (0:ℚ) < 10)] at *
  linarith [abs_nonneg ((roundHalfEven (x * 10) : ℚ) - x * 10)]

/-- Rounding to two decimals never moves a value by more than 1/200. -/
lemma abs_round2_sub_le (x : ℚ) : |round2 x - x| ≤ 1/200 := by
  have h := abs_roundHalfEven_sub_le (x * 100)
  unfold round2
  have : (roundHalfEven (x * 100) : ℚ) / 100 - x = ((roundHalfEven (x * 100) : ℚ) - x * 100) / 100 := by
    ring
  rw [this, abs_div]
  rw [abs_of_pos (by norm_num : (0:ℚ) < 100)] at *
  linarith [abs_nonneg ((roundHalfEven (x * 100) : ℚ) - x * 100)]

/-- Unfolding lemma for `dictGet` on a cons cell. -/
lemma dictGet_cons {α : Type} (k : String) (v : α) (d : List (String × α))
    (key : String) (default : α) :
    dictGet ((k, v) :: d) key default = if k = key then v else dictGet d key default := by
  unfold dictGet
  rcases h : (k == key) with _ | _
  · rw [if_neg (by simpa using h)]
    simp [List.find?_cons, h]
  · rw [if_pos (by simpa using h)]
    simp [List.find?_cons, h]

/-- Unfolding lemma for `dictGet` on the empty list. -/
lemma dictGet_nil {α : Type} (key : String) (default : α) :
    dictGet ([] : List (String × α)) key default = default := rfl

/-- A validated request satisfies the strict numeric field bounds. -/
lemma valid_bounds {r : DietRequest} (h : dietRequestValid r = true) :
    8 < r.age ∧ r.age < 120 ∧ (0.5 : ℚ) < r.height ∧ r.height < 3.0 ∧
      (25 : ℚ) < r.weight ∧ r.weight < 300 := by
  unfold dietRequestValid at h
  simp only [Bool.and_eq_true, decide_eq_true_eq] at h
  tauto

/-- On nonnegative inputs the code's bracket scan agrees with the spec's
bracket table. -/
lemma getBmiCategory_eq_spec {x : ℚ} (hx : 0 ≤ x) : getBmiCategory x = specBmiCategory x := by
  unfold getBmiCategory specBmiCategory
  rcases lt_or_le x (18.5 : ℚ) with h1 | h1
  · simp [BMI_CATEGORIES, List.find?, bracketMatches, hx, h1]
  · have h1n : ¬ x < (18.5 : ℚ) := not_lt.2 h1
    rcases lt_or_le x (25 : ℚ) with h2 | h2
    · simp [BMI_CATEGORIES, List.find?, bracketMatches, hx, h1, h1n, h2]
    · have h2n : ¬ x < (25 : ℚ) := not_lt.2 h2
      rcases lt_or_le x (30 : ℚ) with h3 | h3
      · simp [BMI_CATEGORIES, List.find?, bracketMatches, hx, h1, h1n, h2, h2n, h3]
      · have h3n : ¬ x < (30 : ℚ) := not_lt.2 h3
        simp [BMI_CATEGORIES, List.find?, bracketMatches, hx, h1, h1n, h2, h2n, h3, h3n]

/-- The spec-side bracket table only produces the four listed labels. -/
lemma specBmiCategory_cases (x : ℚ) :
    specBmiCategory x = "Underweight" ∨ specBmiCategory x = "Normal weight" ∨
    specBmiCategory x = "Overweight" ∨ specBmiCategory x = "Obese" := by
  unfold specBmiCategory
  split_ifs <;> simp

/-! ### C1 — boundary acceptance of validation -/

/-- C1 counterexample: contrary to the claim, a profile with height exactly
0.5 (or 3.0), or weight exactly 25 (or 300), is rejected by `DietRequest`
validation, because the pydantic `Field` bounds are strict (`gt`/`lt`). -/
theorem boundary_values_rejected :
    dietRequestValid ⟨25, "male", 0.5, 70, "moderately_active", "maintain"⟩ = false ∧
    dietRequestValid ⟨25, "male", 3.0, 70, "moderately_active", "maintain"⟩ = false ∧
    dietRequestValid ⟨25, "male", 1.75, 25, "moderately_active", "maintain"⟩ = false ∧
    dietRequestValid ⟨25, "male", 1.75, 300, "moderately_active", "maintain"⟩ = false := by
  refine ⟨?_, ?_, ?_, ?_⟩ <;>
    simp [dietRequestValid, genderLiteralOk, activityLiteralOk, goalLiteralOk,
      validate_height, validate_weight]

/-- C1 (amended): for a profile whose gender, activity level and goal are
legal enum values, validation accepts exactly when `8 < age < 120`,
`0.5 < height < 3.0` and `25 < weight < 300`, all strict. In particular
age 9 and 119 are accepted while age 8, height 0.49, and the exact
boundary values height 0.5/3.0 and weight 25/300 are rejected. -/
theorem validation_accepts_iff_strict_bounds (r : DietRequest)
    (hg : genderLiteralOk r.gender = true)
    (ha : activityLiteralOk r.activity_level = true)
    (hl : goalLiteralOk r.goal = true) :
    dietRequestValid r = true ↔
      (8 < r.age ∧ r.age < 120 ∧ (0.5 : ℚ) < r.height ∧ r.height < 3.0 ∧
       (25 : ℚ) < r.weight ∧ r.weight < 300) := by
  unfold dietRequestValid validate_height validate_weight
  simp [hg, ha, hl, and_assoc]
  intro h1 h2 h3 h4 h5 h6
  exact ⟨h3.le, h4.le, h5.le, h6.le⟩

/-- Witness for the amended C1: the boundary profile with age 9 is
accepted. -/
theorem validation_accepts_iff_strict_bounds_witness :
    dietRequestValid ⟨9, "male", 1.75, 70, "moderately_active", "maintain"⟩ = true :=
  (validation_accepts_iff_strict_bounds
    ⟨9, "male", 1.75, 70, "moderately_active", "maintain"⟩ rfl rfl rfl).mpr
    (by norm_num)

/-! ### C2 — zero height and the HTTP status of calculation errors -/

/-- C2 counterexample: at height 0 the service raises a
`CalculationException`, but `create_diet_plan` surfaces it as HTTP 500
(its blanket `except Exception` re-raises `HTTPException(500)`), not as
the claimed 400. -/
theorem calculation_error_surfaced_as_500 :
    get_complete_plan ⟨25, "male", 0, 70, "moderately_active", "maintain"⟩ =
      .error (.calculationException "Invalid height value for BMI calculation") ∧
    routeStatus (create_diet_plan ⟨25, "male", 0, 70, "moderately_active", "maintain"⟩) =
      some 500 := by
  have hbmi : calculate_bmi ⟨25, "male", 0, 70, "moderately_active", "maintain"⟩ =
      .error (.calculationException "Invalid height value for BMI calculation") := by
    unfold calculate_bmi
    rw [if_pos (by norm_num)]
  have hplan : get_complete_plan ⟨25, "male", 0, 70, "moderately_active", "maintain"⟩ =
      .error (.calculationException "Invalid height value for BMI calculation") := by
    unfold get_complete_plan
    rw [hbmi]
    rfl
  refine ⟨hplan, ?_⟩
  unfold create_diet_plan
  rw [hplan]
  rfl

/-- C2 (amended): if height is zero, `calculate_bmi` raises a
`CalculationException` rather than propagating the raw division error, and
a `CalculationException` arising while serving `POST /diet-plan` is
surfaced to the client as an HTTP 500 response with detail
"Failed to generate diet plan" — not 400, because the route's blanket
`except Exception` converts it to `HTTPException(500)` before the
registered `DietServiceException -> 400` handler can see it. -/
theorem zero_height_calculation_error (u : DietRequest) (h : u.height = 0) :
    calculate_bmi u = .error (.calculationException "Invalid height value for BMI calculation") ∧
    create_diet_plan u = .httpError 500 "Failed to generate diet plan" := by
  have h2 : u.height ^ 2 = 0 := by rw [h]; norm_num
  have hbmi : calculate_bmi u =
      .error (.calculationException "Invalid height value for BMI calculation") := by
    unfold calculate_bmi
    rw [if_pos h2]
  refine ⟨hbmi, ?_⟩
  unfold create_diet_plan get_complete_plan
  rw [hbmi]
  rfl

/-- Witness for the amended C2 at a concrete zero-height profile. -/
theorem zero_height_calculation_error_witness :
    calculate_bmi ⟨25, "male", 0, 70, "moderately_active", "maintain"⟩ =
      .error (.calculationException "Invalid height value for BMI calculation") ∧
    create_diet_plan ⟨25, "male", 0, 70, "moderately_active", "maintain"⟩ =
      .httpError 500 "Failed to generate diet plan" :=
  zero_height_calculation_error ⟨25, "male", 0, 70, "moderately_active", "maintain"⟩ rfl

/-! ### C3 — BMI value and category -/

/-- C3: for every valid profile `calculate_bmi` succeeds, its value is
within 0.01 of `weight / height²` (the code rounds to two decimals), and
its category is the spec's closed-left/open-right bracket lookup applied
to the exact BMI; moreover the bracket scan itself maps BMI 18.5 to
"Normal weight" and BMI 25.0 to "Overweight". -/
theorem bmi_value_and_category (u : DietRequest) (h : dietRequestValid u = true) :
    (∃ r, calculate_bmi u = .ok r ∧
      |r.value - u.weight / u.height ^ 2| ≤ 1/100 ∧
      r.category = specBmiCategory (u.weight / u.height ^ 2)) ∧
    getBmiCategory (18.5 : ℚ) = "Normal weight" ∧
    getBmiCategory (25 : ℚ) = "Overweight" := by
  obtain ⟨-, -, hh1, -, hw1, -⟩ := valid_bounds h
  have hh0 : u.height ≠ 0 := ne_of_gt (by linarith)
  have hsq : u.height ^ 2 ≠ 0 := pow_ne_zero 2 hh0
  have hbmi_pos : 0 < u.weight / u.height ^ 2 := by positivity
  refine ⟨⟨⟨round2 (u.weight / u.height ^ 2), getBmiCategory (u.weight / u.height ^ 2)⟩,
    ?_, ?_, ?_⟩, ?_, ?_⟩
  · unfold calculate_bmi
    rw [if_neg hsq]
  · exact le_trans (abs_round2_sub_le _) (by norm_num)
  · exact getBmiCategory_eq_spec hbmi_pos.le
  · rw [getBmiCategory_eq_spec (by norm_num)]
    norm_num [specBmiCategory]
  · rw [getBmiCategory_eq_spec (by norm_num)]
    norm_num [specBmiCategory]

/-- Witness for C3 at the example profile. -/
theorem bmi_value_and_category_witness :
    (∃ r, calculate_bmi ⟨25, "male", 1.75, 70, "moderately_active", "maintain"⟩ = .ok r ∧
      |r.value - (70 : ℚ) / (1.75 : ℚ) ^ 2| ≤ 1/100 ∧
      r.category = specBmiCategory ((70 : ℚ) / (1.75 : ℚ) ^ 2)) ∧
    getBmiCategory (18.5 : ℚ) = "Normal weight" ∧
    getBmiCategory (25 : ℚ) = "Overweight" :=
  bmi_value_and_category ⟨25, "male", 1.75, 70, "moderately_active", "maintain"⟩
    (by simp [dietRequestValid, genderLiteralOk, activityLiteralOk, goalLiteralOk,
      validate_height, validate_weight]; norm_num)

/-! ### Dict lookups as if-chains -/

/-- GOAL_ADJUSTMENTS lookup written as an if-chain. -/
lemma dictGet_goal_adjustments (g : String) :
    dictGet GOAL_ADJUSTMENTS g 0 =
      if g = "maintain" then 0 else if g = "cut" then -500
      else if g = "bulk" then 300 else 0 := by
  unfold GOAL_ADJUSTMENTS
  rw [dictGet_cons, dictGet_cons, dictGet_cons, dictGet_nil]
  rcases eq_or_ne g "maintain" with h | h
  · simp [h]
  · rw [if_neg (fun e => h e.symm), if_neg h]
    rcases eq_or_ne g "cut" with h2 | h2
    · simp [h2]
    · rw [if_neg (fun e => h2 e.symm), if_neg h2]
      rcases eq_or_ne g "bulk" with h3 | h3
      · simp [h3]
      · rw [if_neg (fun e => h3 e.symm), if_neg h3]

/-- PROTEIN_MULTIPLIERS lookup written as an if-chain. -/
lemma dictGet_protein_multipliers (g : String) :
    dictGet PROTEIN_MULTIPLIERS g 1.6 =
      if g = "maintain" then 1.6 else if g = "cut" then 2.2
      else if g = "bulk" then 1.8 else 1.6 := by
  unfold PROTEIN_MULTIPLIERS
  rw [dictGet_cons, dictGet_cons, dictGet_cons, dictGet_nil]
  rcases eq_or_ne g "maintain" with h | h
  · simp [h]
  · rw [if_neg (fun e => h e.symm), if_neg h]
    rcases eq_or_ne g "cut" with h2 | h2
    · simp [h2]
    · rw [if_neg (fun e => h2 e.symm), if_neg h2]
      rcases eq_or_ne g "bulk" with h3 | h3
      · simp [h3]
      · rw [if_neg (fun e => h3 e.symm), if_neg h3]

/-- ACTIVITY_MULTIPLIERS lookup written as an if-chain. -/
lemma dictGet_activity_multipliers (a : String) :
    dictGet ACTIVITY_MULTIPLIERS a 1.55 =
      if a = "sedentary" then 1.2 else if a = "lightly_active" then 1.375
      else if a = "moderately_active" then 1.55 else if a = "very_active" then 1.725
      else if a = "extra_active" then 1.9 else 1.55 := by
  unfold ACTIVITY_MULTIPLIERS
  rw [dictGet_cons, dictGet_cons, dictGet_cons, dictGet_cons, dictGet_cons, dictGet_nil]
  rcases eq_or_ne a "sedentary" with h1 | h1
  · simp [h1]
  · rw [if_neg (fun e => h1 e.symm), if_neg h1]
    rcases eq_or_ne a "lightly_active" with h2 | h2
    · simp [h2]
    · rw [if_neg (fun e => h2 e.symm), if_neg h2]
      rcases eq_or_ne a "moderately_active" with h3 | h3
      · simp [h3]
      · rw [if_neg (fun e => h3 e.symm), if_neg h3]
        rcases eq_or_ne a "very_active" with h4 | h4
        · simp [h4]
        · rw [if_neg (fun e => h4 e.symm), if_neg h4]
          rcases eq_or_ne a "extra_active" with h5 | h5
          · simp [h5]
          · rw [if_neg (fun e => h5 e.symm), if_neg h5]

/-! ### C4 — calorie target -/

/-- C4: for every profile, `calculate_calories` returns the TDEE plus the
goal adjustment (maintain 0, cut −500, bulk +300), rounded to the nearest
integer; an unrecognized goal string gets adjustment 0 (the final else). -/
theorem calories_eq_tdee_plus_goal_adjustment (u : DietRequest) :
    calculate_calories u =
      roundHalfEven (calculate_tdee u +
        (if pyLower u.goal = "maintain" then 0
         else if pyLower u.goal = "cut" then -500
         else if pyLower u.goal = "bulk" then 300 else 0)) := by
  unfold calculate_calories
  rw [dictGet_goal_adjustments]

/-! ### C5 — protein target -/

/-- C5: for every profile, `calculate_protein` returns weight times the
goal multiplier (maintain 1.6, cut 2.2, bulk 1.8, unrecognized 1.6),
rounded to one decimal; at weight 70 with goal maintain it is exactly
112.0. -/
theorem protein_eq_weight_times_goal_multiplier (u : DietRequest) :
    calculate_protein u =
      round1 (u.weight *
        (if pyLower u.goal = "maintain" then 1.6
         else if pyLower u.goal = "cut" then 2.2
         else if pyLower u.goal = "bulk" then 1.8 else 1.6)) ∧
    calculate_protein ⟨25, "male", 1.75, 70, "moderately_active", "maintain"⟩ = 112 := by
  constructor
  · unfold calculate_protein
    rw [dictGet_protein_multipliers]
  · show round1 ((70 : ℚ) * 1.6) = 112
    unfold round1
    rw [show (70 : ℚ) * 1.6 * 10 = ((1120 : ℤ) : ℚ) by norm_num,
      roundHalfEven_of_lt_half (le_refl _) (by norm_num)]
    norm_num

/-! ### C6 — BMR via Mifflin-St Jeor -/

/-- C6: for every profile, `calculate_bmr` computes the Mifflin-St Jeor
formula — `10·weight + 6.25·(height·100) − 5·age` plus 5 for male and
−161 otherwise — rounded to one decimal as the code does, hence within
1/20 of the exact formula. -/
theorem bmr_mifflin_st_jeor (u : DietRequest) :
    calculate_bmr u =
      round1 (10 * u.weight + 6.25 * (u.height * 100) - 5 * u.age +
        (if pyLower u.gender = "male" then 5 else -161)) ∧
    |calculate_bmr u -
      (10 * u.weight + 6.25 * (u.height * 100) - 5 * u.age +
        (if pyLower u.gender = "male" then 5 else -161))| ≤ 1/20 := by
  have key : calculate_bmr u =
      round1 (10 * u.weight + 6.25 * (u.height * 100) - 5 * u.age +
        (if pyLower u.gender = "male" then 5 else -161)) := by
    unfold calculate_bmr
    rcases eq_or_ne (pyLower u.gender) "male" with h | h
    · simp only [h, beq_self_eq_true, if_true, if_pos]
    · have hb : (pyLower u.gender == "male") = false := beq_eq_false_iff_ne.mpr h
      simp only [hb, Bool.false_eq_true, if_false, if_neg h]
      congr 1
      ring
  refine ⟨key, ?_⟩
  rw [key]
  exact abs_round1_sub_le _

/-! ### C7 — TDEE via activity multiplier -/

/-- C7: for every profile, `calculate_tdee` returns the BMR times the
activity multiplier (sedentary 1.2, lightly_active 1.375,
moderately_active 1.55, very_active 1.725, extra_active 1.9), rounded to
one decimal as the code does; any unrecognized activity-level string uses
the default multiplier 1.55 (the final else). -/
theorem tdee_eq_bmr_times_activity_multiplier (u : DietRequest) :
    calculate_tdee u =
      round1 (calculate_bmr u *
        (if pyLower u.activity_level = "sedentary" then 1.2
         else if pyLower u.activity_level = "lightly_active" then 1.375
         else if pyLower u.activity_level = "moderately_active" then 1.55
         else if pyLower u.activity_level = "very_active" then 1.725
         else if pyLower u.activity_level = "extra_active" then 1.9
         else 1.55)) := by
  unfold calculate_tdee
  rw [dictGet_activity_multipliers]

/-! ### C8 — fixed meal-plan tables -/

/-- C8: `generate_diet_chart` returns the fixed cut table for goal "cut",
the fixed bulk table for "bulk", and the maintain table for "maintain" and
for every other goal string (the dict default); each table has exactly the
four keys breakfast, lunch, snacks, dinner (the `MealPlan` structure) and
every list is non-empty. -/
theorem diet_chart_fixed_tables (u : DietRequest) :
    generate_diet_chart u =
      (if pyLower u.goal = "cut" then cutMealPlan
       else if pyLower u.goal = "bulk" then bulkMealPlan
       else maintainMealPlan) ∧
    (generate_diet_chart u).breakfast ≠ [] ∧
    (generate_diet_chart u).lunch ≠ [] ∧
    (generate_diet_chart u).snacks ≠ [] ∧
    (generate_diet_chart u).dinner ≠ [] := by
  have key : generate_diet_chart u =
      (if pyLower u.goal = "cut" then cutMealPlan
       else if pyLower u.goal = "bulk" then bulkMealPlan
       else maintainMealPlan) := by
    unfold generate_diet_chart meal_plans
    rw [dictGet_cons, dictGet_cons, dictGet_cons, dictGet_nil]
    rcases eq_or_ne (pyLower u.goal) "cut" with h | h
    · simp [h]
    · rw [if_neg (fun e => h e.symm), if_neg h]
      rcases eq_or_ne (pyLower u.goal) "bulk" with h2 | h2
      · simp [h2]
      · rw [if_neg (fun e => h2 e.symm), if_neg h2]
        rcases eq_or_ne (pyLower u.goal) "maintain" with h3 | h3
        · simp [h3]
        · rw [if_neg (fun e => h3 e.symm)]
  refine ⟨key, ?_, ?_, ?_, ?_⟩ <;> rw [key] <;> split_ifs <;>
    simp [cutMealPlan, bulkMealPlan, maintainMealPlan]

/-! ### C9 — determinism of the complete plan -/

/-- C9: `get_complete_plan` is deterministic — two invocations on profiles
whose six fields agree produce identical outputs; every field of the
result is a pure function of the profile inputs. -/
theorem complete_plan_deterministic (u v : DietRequest)
    (h1 : u.age = v.age) (h2 : u.gender = v.gender) (h3 : u.height = v.height)
    (h4 : u.weight = v.weight) (h5 : u.activity_level = v.activity_level)
    (h6 : u.goal = v.goal) :
    get_complete_plan u = get_complete_plan v := by
  have huv : u = v := by
    cases u
    cases v
    simp_all
  rw [huv]

/-- Witness for C9: two syntactically different but equal profiles give the
same plan. -/
theorem complete_plan_deterministic_witness :
    get_complete_plan ⟨25, "male", 1.75, 70, "moderately_active", "maintain"⟩ =
      get_complete_plan ⟨25, "male", 1.75, 140/2, "moderately_active", "maintain"⟩ :=
  complete_plan_deterministic
    ⟨25, "male", 1.75, 70, "moderately_active", "maintain"⟩
    ⟨25, "male", 1.75, 140/2, "moderately_active", "maintain"⟩
    rfl rfl rfl (by norm_num) rfl rfl

/-! ### C10 — the Unknown fallback is unreachable for valid profiles -/

/-- C10: for any profile within the validation bounds (weight > 25 and
height > 0.5), the BMI is strictly positive, the bracket scan never
returns its "Unknown" fallback, and `calculate_bmi` returns one of the
four listed categories. -/
theorem bmi_category_never_unknown (u : DietRequest)
    (hw : (25 : ℚ) < u.weight) (hh : (0.5 : ℚ) < u.height) :
    0 < u.weight / u.height ^ 2 ∧
    getBmiCategory (u.weight / u.height ^ 2) ≠ "Unknown" ∧
    (∃ r, calculate_bmi u = .ok r ∧
      (r.category = "Underweight" ∨ r.category = "Normal weight" ∨
       r.category = "Overweight" ∨ r.category = "Obese")) := by
  have hh0 : u.height ≠ 0 := ne_of_gt (by linarith)
  have hsq : u.height ^ 2 ≠ 0 := pow_ne_zero 2 hh0
  have hpos : 0 < u.weight / u.height ^ 2 := by positivity
  have hcat : getBmiCategory (u.weight / u.height ^ 2) =
      specBmiCategory (u.weight / u.height ^ 2) := getBmiCategory_eq_spec hpos.le
  refine ⟨hpos, ?_, ?_⟩
  · rw [hcat]
    rcases specBmiCategory_cases (u.weight / u.height ^ 2) with h | h | h | h <;>
      rw [h] <;> decide
  · refine ⟨⟨round2 (u.weight / u.height ^ 2), getBmiCategory (u.weight / u.height ^ 2)⟩,
      ?_, ?_⟩
    · unfold calculate_bmi
      rw [if_neg hsq]
    · rw [hcat]
      exact specBmiCategory_cases _

/-- Witness for C10 at the example profile. -/
theorem bmi_category_never_unknown_witness :
    0 < (70 : ℚ) / (1.75 : ℚ) ^ 2 ∧
    getBmiCategory ((70 : ℚ) / (1.75 : ℚ) ^ 2) ≠ "Unknown" ∧
    (∃ r, calculate_bmi ⟨25, "male", 1.75, 70, "moderately_active", "maintain"⟩ = .ok r ∧
      (r.category = "Underweight" ∨ r.category = "Normal weight" ∨
       r.category = "Overweight" ∨ r.category = "Obese")) :=
  bmi_category_never_unknown ⟨25, "male", 1.75, 70, "moderately_active", "maintain"⟩
    (by norm_num) (by norm_num)

end NutriPlan
